import Mathlib

/-!
Shallow embedding of the LawSathi backend (`src/LawSathi/backend/server.py`).

The backend is a single FastAPI module with the data-touching endpoints
`POST /chat`, `POST /upload-document` and `GET /chat-history/{session_id}`
(plus static probes).  All mutable state lives in an external MongoDB
store with two collections (`chat_messages` and `documents`); the AI
model, the PDF parser and the OCR engine are external collaborators.

We embed the handlers as pure Lean functions.  The external collaborators
are modelled as oracles packed in an `Env` record:
  * `llm sid msg` is the LLM call (`chat.send_message`): it either returns
    the answer or raises (`Except Unit String`);
  * `pdfPages` is the result of per-page text extraction via
    `PyPDF2.PdfReader(...).pages`: either the library raises, or it
    yields the list of per-page strings;
  * `ocrText` likewise for `pytesseract.image_to_string`;
  * `insertChatFails` / `insertDocFails` model the two `insert_one`
    calls raising; `findErr` models the find/sort/to_list call raising
    with a message;
  * `freshId`, `chatId`, `docId`, `chatTs`, `docTs`, `respTs` model the
    `uuid.uuid4()` and `datetime.utcnow()` default factories.
Handlers take the current `Store` and return the HTTP outcome
(`Except HTTPError A`, where an `HTTPError` carries the status code and
detail string of a raised `HTTPException`) paired with the store state
after the handler finished or the exception escaped.
-/

/-- A raised `HTTPException`: status code and detail string. -/
structure HTTPError where
  status_code : Nat
  detail : String
deriving DecidableEq, Repr

/-- `ChatMessage` pydantic model (server.py lines 44-50). -/
structure ChatMessage where
  id : String
  session_id : String
  message : String
  response : String
  timestamp : Nat
  message_type : String
deriving DecidableEq, Repr

/-- `DocumentUpload` pydantic model (server.py lines 63-69). -/
structure DocumentUpload where
  id : String
  session_id : String
  filename : String
  extracted_text : String
  simplified_explanation : String
  timestamp : Nat
deriving DecidableEq, Repr

/-- `ChatRequest` pydantic model (server.py lines 52-55). -/
structure ChatRequest where
  message : String
  session_id : Option String
  language : String
deriving DecidableEq, Repr

/-- `ChatResponse` pydantic model (server.py lines 57-61). -/
structure ChatResponse where
  response : String
  session_id : String
  timestamp : Nat
  sources : List String
deriving DecidableEq, Repr

/-- The uploaded file of `/upload-document`: declared content type and
client-supplied filename.  The raw bytes stay opaque: the extraction
oracles in `Env` already carry the behaviour of the libraries on them. -/
structure UploadedFile where
  content_type : String
  filename : String
deriving DecidableEq, Repr

/-- The two MongoDB collections (`db.chat_messages`, `db.documents`).
`insert_one` appends to the corresponding list. -/
structure Store where
  chat_messages : List ChatMessage
  documents : List DocumentUpload
deriving DecidableEq, Repr

/-- External-collaborator oracles and generated identifiers for one
request (see the module docstring). -/
structure Env where
  freshId : String
  chatId : String
  docId : String
  chatTs : Nat
  docTs : Nat
  respTs : Nat
  llm : String → String → Except Unit String
  pdfPages : Except Unit (List String)
  ocrText : Except Unit String
  insertChatFails : Bool
  insertDocFails : Bool
  findErr : Option String

/-- The static apology string returned by `get_ai_response` when the LLM
call raises (server.py line 133). -/
def apology_message : String :=
  "I apologize, but I\x27m having trouble processing your request right now. Please try again later."

/-- Python `str.lower` (ASCII case folding, which suffices for the
`"hindi"` comparison it is used for). -/
def pyLower (s : String) : String :=
  String.mk (s.data.map Char.toLower)

/-- The language-dependent rewriting of the outgoing message inside
`get_ai_response` (server.py lines 122-125). -/
def tagged_message (language message : String) : String :=
  if pyLower language = "hindi" then
    "Please respond in simple Hindi (Devanagari script): " ++ message
  else
    "Please respond in simple English: " ++ message

/-- `get_ai_response` (server.py lines 111-133): send the language-tagged
message to the LLM; any exception is swallowed and replaced by the static
apology string, so this helper never raises. -/
def get_ai_response (env : Env) (message session_id language : String) : String :=
  match env.llm session_id (tagged_message language message) with
  | Except.ok r => r
  | Except.error _ => apology_message

/-- Python `str.strip` on a character list: drop whitespace from both
ends. -/
def stripChars (cs : List Char) : List Char :=
  ((cs.dropWhile Char.isWhitespace).reverse.dropWhile Char.isWhitespace).reverse

/-- Python `str.strip`. -/
def pyStrip (s : String) : String :=
  String.mk (stripChars s.data)

/-- The page-concatenation loop of `extract_text_from_pdf`
(server.py lines 139-141): `text += page.extract_text() + "\n"`. -/
def pdfConcat (pages : List String) : String :=
  pages.foldl (fun acc p => acc ++ p ++ "\n") ""

/-- `extract_text_from_pdf` (server.py lines 135-145): if the PDF library
raises, answer 400; otherwise concatenate the page texts with newline
separators and strip. -/
def extract_text_from_pdf (r : Except Unit (List String)) : Except HTTPError String :=
  match r with
  | Except.error _ => Except.error ⟨400, "Failed to extract text from PDF"⟩
  | Except.ok pages => Except.ok (pyStrip (pdfConcat pages))

/-- `extract_text_from_image` (server.py lines 147-165): if the OCR
library raises, answer 400; otherwise strip the recognised text. -/
def extract_text_from_image (r : Except Unit String) : Except HTTPError String :=
  match r with
  | Except.error _ => Except.error ⟨400, "Failed to extract text from image"⟩
  | Except.ok t => Except.ok (pyStrip t)

/-- The `allowed_types` list of `upload_document` (server.py line 210).
Note it spells the JPEG declaration both as `image/jpeg` and as its
common alias `image/jpg`. -/
def allowed_types : List String :=
  ["application/pdf", "image/jpeg", "image/png", "image/jpg"]

/-- The content-type dispatch of `upload_document` (server.py
lines 218-221): the PDF extractor for `application/pdf`, OCR for
everything else that passed the allow-list. -/
def extract_dispatch (content_type : String) (env : Env) : Except HTTPError String :=
  if content_type = "application/pdf" then
    extract_text_from_pdf env.pdfPages
  else
    extract_text_from_image env.ocrText

/-- The analysis prompt built by `upload_document` (server.py
lines 227-240), embedding the full extracted text. -/
def explanation_prompt (language extracted_text : String) : String :=
  "Analyze this legal document and provide a simplified explanation in " ++
  (if language = "hindi" then "Hindi" else "English") ++
  ":\n\nDocument Text:\n" ++ extracted_text ++
  "\n\nPlease provide:\n" ++
  "1. What type of legal document this is\n" ++
  "2. Key points and important information\n" ++
  "3. What actions the person should take (if any)\n" ++
  "4. Any deadlines or important dates\n" ++
  "5. Rights and obligations mentioned\n" ++
  "6. Whether legal consultation is recommended\n\n" ++
  "Make the explanation simple and easy to understand for someone with limited legal knowledge."

/-- The session id actually used by `chat_endpoint` (server.py line 177):
the Python expression `request.session_id or str(uuid.uuid4())` replaces
a missing *or empty* session id by a fresh identifier. -/
def chat_session_id (req : ChatRequest) (env : Env) : String :=
  match req.session_id with
  | some s => if s = "" then env.freshId else s
  | none => env.freshId

/-- `chat_endpoint` (server.py lines 172-199).  The AI helper never
raises; the only exception source left inside the `try` is the store
insert, which the outer handler converts to a 500. -/
def chat_endpoint (req : ChatRequest) (env : Env) (st : Store) :
    Except HTTPError ChatResponse × Store :=
  let session_id := chat_session_id req env
  let ai_response := get_ai_response env req.message session_id req.language
  if env.insertChatFails then
    (Except.error ⟨500, "Failed to process chat request"⟩, st)
  else
    let chat_record : ChatMessage :=
      { id := env.chatId, session_id := session_id, message := req.message,
        response := ai_response, timestamp := env.chatTs, message_type := "text" }
    (Except.ok { response := ai_response, session_id := session_id,
                 timestamp := env.respTs,
                 sources := ["Indian Legal Database", "Government Schemes Portal"] },
     { st with chat_messages := st.chat_messages ++ [chat_record] })

/-- The JSON body returned by a successful `upload_document`
(server.py lines 262-267). -/
structure UploadResponse where
  message : String
  extracted_text : String
  explanation : String
  session_id : String
deriving DecidableEq, Repr

/-- `upload_document` (server.py lines 201-273).  An `HTTPException`
raised inside the `try` is re-raised unchanged (`except HTTPException:
raise`); any other exception — here only the two store inserts — becomes
a 500.  The store keeps whatever inserts completed before the failure. -/
def upload_document (file : UploadedFile) (session_id language : String)
    (env : Env) (st : Store) : Except HTTPError UploadResponse × Store :=
  if file.content_type ∉ allowed_types then
    (Except.error ⟨400, "Only PDF and image files are supported"⟩, st)
  else
    match extract_dispatch file.content_type env with
    | Except.error e => (Except.error e, st)
    | Except.ok extracted_text =>
      if extracted_text = "" then
        (Except.error ⟨400, "No text could be extracted from the document"⟩, st)
      else
        let ai_explanation :=
          get_ai_response env (explanation_prompt language extracted_text) session_id language
        if env.insertDocFails then
          (Except.error ⟨500, "Failed to process document"⟩, st)
        else
          let doc_record : DocumentUpload :=
            { id := env.docId, session_id := session_id, filename := file.filename,
              extracted_text := extracted_text,
              simplified_explanation := ai_explanation, timestamp := env.docTs }
          let st1 : Store := { st with documents := st.documents ++ [doc_record] }
          if env.insertChatFails then
            (Except.error ⟨500, "Failed to process document"⟩, st1)
          else
            let chat_record : ChatMessage :=
              { id := env.chatId, session_id := session_id,
                message := "Uploaded document: " ++ file.filename,
                response := ai_explanation, timestamp := env.chatTs,
                message_type := "document" }
            let st2 : Store := { st1 with chat_messages := st1.chat_messages ++ [chat_record] }
            (Except.ok { message := "Document processed successfully",
                         extracted_text :=
                           if extracted_text.length > 500 then
                             extracted_text.take 500 ++ "..."
                           else extracted_text,
                         explanation := ai_explanation, session_id := session_id },
             st2)

/-- A raw MongoDB document of the `chat_messages` collection as seen by
`get_chat_history`: schema-less, so every application field is optional;
`mongo_id` is the internal `_id` of the store (also optional, matching
the guard `msg.get("_id", "")` in the code). -/
structure StoredMsg where
  mongo_id : Option String
  id : Option String
  session_id : Option String
  message : Option String
  response : Option String
  timestamp : Option Nat
  message_type : Option String
deriving DecidableEq, Repr

/-- The value of the `timestamp` key in a cleaned history record:
`msg.get("timestamp", "")` yields the stored timestamp, or the empty
string when the field is missing. -/
inductive TsOut where
  | ts (t : Nat)
  | emptyStr
deriving DecidableEq, Repr

/-- A cleaned history record, the fixed field set built by
`get_chat_history` (server.py lines 286-293). -/
structure CleanMessage where
  id : String
  session_id : String
  message : String
  response : String
  timestamp : TsOut
  message_type : String
deriving DecidableEq, Repr

/-- The per-record projection of `get_chat_history` (server.py
lines 286-293): `id` falls back to the stringified `_id` (itself
defaulting to `""`), the string fields default to `""`, `message_type`
defaults to `"text"`. -/
def clean_message (m : StoredMsg) : CleanMessage :=
  { id := m.id.getD (m.mongo_id.getD ""),
    session_id := m.session_id.getD "",
    message := m.message.getD "",
    response := m.response.getD "",
    timestamp := match m.timestamp with
      | some t => TsOut.ts t
      | none => TsOut.emptyStr,
    message_type := m.message_type.getD "text" }

/-- MongoDB ascending comparison on the `timestamp` field: documents
missing the field sort before any present value. -/
def tsLe : Option Nat → Option Nat → Bool
  | none, _ => true
  | some _, none => false
  | some a, some b => a ≤ b

/-- The comparison `tsLe` lifted to cleaned records. -/
def cleanTsLe : TsOut → TsOut → Bool
  | TsOut.emptyStr, _ => true
  | TsOut.ts _, TsOut.emptyStr => false
  | TsOut.ts a, TsOut.ts b => a ≤ b

/-- `db.chat_messages.find({"session_id": session_id}).sort("timestamp",
1).to_list(100)` (server.py lines 279-281): filter on the session key,
sort ascending by timestamp, keep at most 100 documents. -/
def mongo_find_sorted (msgs : List StoredMsg) (sid : String) : List StoredMsg :=
  ((msgs.filter (fun m => m.session_id = some sid)).mergeSort
    (fun a b => tsLe a.timestamp b.timestamp)).take 100

/-- `get_chat_history` (server.py lines 275-299): on a store failure,
500 with the underlying error text appended; otherwise the cleaned,
filtered, sorted, limited record list wrapped as `{"messages": ...}`. -/
def get_chat_history (session_id : String) (env : Env) (msgs : List StoredMsg) :
    Except HTTPError (List CleanMessage) :=
  match env.findErr with
  | some e => Except.error ⟨500, "Failed to retrieve chat history: " ++ e⟩
  | none => Except.ok ((mongo_find_sorted msgs session_id).map clean_message)

/-- Fixture: oracles for the concrete witnesses (the LLM call raises). -/
def env0 : Env :=
  { freshId := "F", chatId := "C", docId := "D", chatTs := 5, docTs := 4, respTs := 6,
    llm := fun _ _ => Except.error (), pdfPages := Except.ok ["page"],
    ocrText := Except.ok "", insertChatFails := false, insertDocFails := false,
    findErr := none }

/-- Fixture: like `env0` but the LLM call answers `"ANSWER"`. -/
def envOK : Env := { env0 with llm := fun _ _ => Except.ok "ANSWER" }

/-- Fixture: like `env0` but the PDF pages hold only whitespace. -/
def envWS : Env := { env0 with pdfPages := Except.ok ["  ", " \n"] }

/-- Fixture: like `envOK` but the chat-message insert raises. -/
def envChatIns : Env := { envOK with insertChatFails := true }

/-- Fixture: the empty store. -/
def st0 : Store := { chat_messages := [], documents := [] }

/-- Fixture: a small raw collection with one record of session `"s"`
(several fields missing) and one of session `"t"`. -/
def msgs1 : List StoredMsg :=
  [{ mongo_id := some "m1", id := none, session_id := some "s", message := none,
     response := none, timestamp := some 9, message_type := none },
   { mongo_id := some "m3", id := some "i3", session_id := some "t", message := none,
     response := none, timestamp := some 1, message_type := none }]

/-- Fixture: the cleaned history that `get_chat_history` returns on
`msgs1` for session `"s"`. -/
def out1 : List CleanMessage :=
  [{ id := "m1", session_id := "s", message := "", response := "",
     timestamp := TsOut.ts 9, message_type := "text" }]

/-- The language tagging always strictly lengthens the message, so the
tagged variant never coincides with the original user message. -/
theorem tagged_message_ne (l m : String) : tagged_message l m ≠ m := by
  intro h
  have hlen := congrArg String.length h
  unfold tagged_message at hlen
  have h1 : (0:Nat) < ("Please respond in simple Hindi (Devanagari script): " : String).length := by
    decide
  have h2 : (0:Nat) < ("Please respond in simple English: " : String).length := by
    decide
  split at hlen <;> rw [String.length_append] at hlen <;> omega

/-- `tsLe` is transitive. -/
theorem tsLe_trans : ∀ (a b c : Option Nat),
    tsLe a b = true → tsLe b c = true → tsLe a c = true
  | none, _, _, _, _ => rfl
  | some _, none, _, h1, _ => by cases h1
  | some _, some _, none, _, h2 => by cases h2
  | some a, some b, some c, h1, h2 => by
    simp only [tsLe, decide_eq_true_eq] at h1 h2 ⊢
    omega

/-- `tsLe` is total. -/
theorem tsLe_total : ∀ (a b : Option Nat), tsLe a b || tsLe b a
  | none, _ => rfl
  | some _, none => rfl
  | some a, some b => by
    simp only [tsLe, Bool.or_eq_true, decide_eq_true_eq]
    omega

/-- The projection `clean_message` is monotone with respect to the two
timestamp comparisons. -/
theorem cleanTsLe_of_tsLe (a b : StoredMsg) (h : tsLe a.timestamp b.timestamp = true) :
    cleanTsLe (clean_message a).timestamp (clean_message b).timestamp = true := by
  rcases a with ⟨_, _, _, _, _, ta, _⟩
  rcases b with ⟨_, _, _, _, _, tb, _⟩
  cases ta <;> cases tb
  · rfl
  · rfl
  · cases h
  · exact h

/-- The record list fetched by `get_chat_history` is sorted ascending by
the stored timestamp. -/
theorem mongo_find_sorted_pairwise (msgs : List StoredMsg) (sid : String) :
    List.Pairwise (fun a b : StoredMsg => tsLe a.timestamp b.timestamp = true)
      (mongo_find_sorted msgs sid) := by
  apply List.Pairwise.sublist (List.take_sublist 100 _)
  exact List.sorted_mergeSort
    (fun a b c => tsLe_trans a.timestamp b.timestamp c.timestamp)
    (fun a b => tsLe_total a.timestamp b.timestamp)
    (msgs.filter (fun m => m.session_id = some sid))

/-- Every record fetched by `get_chat_history` comes from the collection
and carries the requested session id. -/
theorem mongo_find_sorted_mem (msgs : List StoredMsg) (sid : String) (m : StoredMsg)
    (h : m ∈ mongo_find_sorted msgs sid) : m ∈ msgs ∧ m.session_id = some sid := by
  have h1 := List.mem_mergeSort.mp (List.mem_of_mem_take h)
  have h2 := List.mem_filter.mp h1
  refine ⟨h2.1, ?_⟩
  have h3 := h2.2
  simp only [decide_eq_true_eq] at h3
  exact h3

/-- Concrete evaluation of `get_chat_history` on the fixture. -/
theorem c7_witness_h : get_chat_history "s" env0 msgs1 = Except.ok out1 := by
  simp [get_chat_history, env0, mongo_find_sorted, msgs1, clean_message, out1]

/-- C1: every `/upload-document` request whose declared content type is
outside the allow-list (the declarations of PDF, JPEG — in both standard
and alias spelling — and PNG) is answered with a 400 carrying a
descriptive message, and the store is left exactly as it was: no
`DocumentUpload` and no `ChatMessage` is persisted. -/
theorem upload_rejects_bad_content_type (file : UploadedFile) (sid lang : String)
    (env : Env) (st : Store) (h : file.content_type ∉ allowed_types) :
    upload_document file sid lang env st =
      (Except.error ⟨400, "Only PDF and image files are supported"⟩, st) := by
  simp [upload_document, h]

/-- C1 witness: a `text/plain` upload is rejected with 400 and the empty
store stays empty. -/
theorem upload_rejects_bad_content_type_witness :
    upload_document { content_type := "text/plain", filename := "a.txt" } "s" "english" env0 st0 =
      (Except.error ⟨400, "Only PDF and image files are supported"⟩, st0) :=
  upload_rejects_bad_content_type _ _ _ _ _ (by decide)

/-- C2: every `/upload-document` request of an accepted type whose
extraction yields the empty string (which is what stripping leaves of
whitespace-only extractable text) is answered with a 400, and the store
is unchanged: no `DocumentUpload` and no `ChatMessage` is created. -/
theorem upload_rejects_empty_extraction (file : UploadedFile) (sid lang : String)
    (env : Env) (st : Store) (hct : file.content_type ∈ allowed_types)
    (hext : extract_dispatch file.content_type env = Except.ok "") :
    upload_document file sid lang env st =
      (Except.error ⟨400, "No text could be extracted from the document"⟩, st) := by
  simp [upload_document, hct, hext]

/-- C2 witness: a PDF whose pages hold only whitespace strips to the
empty string, is rejected with 400, and the empty store stays empty. -/
theorem upload_rejects_empty_extraction_witness :
    upload_document { content_type := "application/pdf", filename := "a.pdf" } "s" "english" envWS st0 =
      (Except.error ⟨400, "No text could be extracted from the document"⟩, st0) :=
  upload_rejects_empty_extraction _ _ _ _ _ (by decide) rfl

/-- C3: on every successful `/upload-document` request the persisted
`DocumentUpload` holds the full extraction output, untruncated, while
the `extracted_text` of the response equals that stored text when it has
at most 500 characters and its 500-character front followed by `"..."`
when it is longer. -/
theorem upload_response_truncates_stored_text (file : UploadedFile) (sid lang : String)
    (env : Env) (st : Store) (resp : UploadResponse) (st' : Store)
    (h : upload_document file sid lang env st = (Except.ok resp, st')) :
    ∃ doc : DocumentUpload,
      st'.documents = st.documents ++ [doc] ∧
      extract_dispatch file.content_type env = Except.ok doc.extracted_text ∧
      resp.extracted_text =
        (if doc.extracted_text.length > 500 then doc.extracted_text.take 500 ++ "..."
         else doc.extracted_text) := by
  by_cases hbad : file.content_type ∈ allowed_types
  case neg => simp [upload_document, hbad] at h
  rcases hex : extract_dispatch file.content_type env with e | t <;>
    rw [upload_document] at h <;> rw [hex] at h <;> simp [hbad] at h
  by_cases ht : t = ""
  · simp [ht] at h
  · by_cases hdoc : env.insertDocFails
    · simp [ht, hdoc] at h
    · by_cases hchat : env.insertChatFails
      · simp [ht, hdoc, hchat] at h
      · simp [ht, hdoc, hchat, Prod.ext_iff] at h
        refine ⟨{ id := env.docId, session_id := sid, filename := file.filename,
                  extracted_text := t,
                  simplified_explanation :=
                    get_ai_response env (explanation_prompt lang t) sid lang,
                  timestamp := env.docTs }, ?_, ?_, ?_⟩
        · rw [← h.2]
        · rfl
        · rw [← h.1]

/-- C3 witness: a successful PDF upload stores the full `"page"` text
and the response repeats it unshortened (it has at most 500 characters). -/
theorem upload_response_truncates_stored_text_witness :
    ∃ doc : DocumentUpload,
      ({ chat_messages := [{ id := "C", session_id := "s",
                             message := "Uploaded document: a.pdf", response := "ANSWER",
                             timestamp := 5, message_type := "document" }],
         documents := [{ id := "D", session_id := "s", filename := "a.pdf",
                         extracted_text := "page", simplified_explanation := "ANSWER",
                         timestamp := 4 }] } : Store).documents = st0.documents ++ [doc] ∧
      extract_dispatch "application/pdf" envOK = Except.ok doc.extracted_text ∧
      ({ message := "Document processed successfully", extracted_text := "page",
         explanation := "ANSWER", session_id := "s" } : UploadResponse).extracted_text =
        (if doc.extracted_text.length > 500 then doc.extracted_text.take 500 ++ "..."
         else doc.extracted_text) :=
  upload_response_truncates_stored_text { content_type := "application/pdf", filename := "a.pdf" }
    "s" "english" envOK st0
    { message := "Document processed successfully", extracted_text := "page",
      explanation := "ANSWER", session_id := "s" }
    { chat_messages := [{ id := "C", session_id := "s",
                          message := "Uploaded document: a.pdf", response := "ANSWER",
                          timestamp := 5, message_type := "document" }],
      documents := [{ id := "D", session_id := "s", filename := "a.pdf",
                      extracted_text := "page", simplified_explanation := "ANSWER",
                      timestamp := 4 }] }
    rfl

/-- C4: a raised LLM failure is never surfaced by `/chat` as an HTTP
error: when persistence works the endpoint returns a plain success whose
`response` field is the static apology string, and the only hard error
the handler can produce is the 500 caused by the persistence step. -/
theorem chat_ai_failure_not_surfaced (req : ChatRequest) (env : Env) (st : Store)
    (hllm : env.llm (chat_session_id req env)
      (tagged_message req.language req.message) = Except.error ()) :
    (env.insertChatFails = false →
      (chat_endpoint req env st).1 =
        Except.ok { response := apology_message, session_id := chat_session_id req env,
                    timestamp := env.respTs,
                    sources := ["Indian Legal Database", "Government Schemes Portal"] }) ∧
    (∀ e : HTTPError, (chat_endpoint req env st).1 = Except.error e →
      env.insertChatFails = true ∧ e = ⟨500, "Failed to process chat request"⟩) := by
  constructor
  · intro hins
    simp [chat_endpoint, get_ai_response, hllm, hins]
  · intro e he
    by_cases hins : env.insertChatFails
    · simp [chat_endpoint, hins] at he
      exact ⟨hins, he.symm⟩
    · simp [chat_endpoint, hins] at he

/-- C4 witness: with a failing LLM oracle and working persistence, the
concrete chat request comes back as a success carrying the apology. -/
theorem chat_ai_failure_not_surfaced_witness :
    ((env0.insertChatFails = false →
      (chat_endpoint { message := "hello", session_id := some "s", language := "english" } env0 st0).1 =
        Except.ok { response := apology_message,
                    session_id := chat_session_id { message := "hello", session_id := some "s", language := "english" } env0,
                    timestamp := env0.respTs,
                    sources := ["Indian Legal Database", "Government Schemes Portal"] }) ∧
    (∀ e : HTTPError,
      (chat_endpoint { message := "hello", session_id := some "s", language := "english" } env0 st0).1 = Except.error e →
      env0.insertChatFails = true ∧ e = ⟨500, "Failed to process chat request"⟩)) :=
  chat_ai_failure_not_surfaced _ _ _ rfl

/-- C5: every successful `/chat` request appends exactly one
`ChatMessage` whose `message_type` is `"text"` and whose `message` field
is the original user message — provably distinct from the
language-tagged variant forwarded to the LLM. -/
theorem chat_persists_original_message (req : ChatRequest) (env : Env) (st : Store)
    (resp : ChatResponse) (st' : Store)
    (h : chat_endpoint req env st = (Except.ok resp, st')) :
    ∃ cm : ChatMessage,
      st'.chat_messages = st.chat_messages ++ [cm] ∧
      cm.message_type = "text" ∧ cm.message = req.message ∧
      cm.message ≠ tagged_message req.language req.message := by
  by_cases hins : env.insertChatFails
  · simp [chat_endpoint, hins] at h
  · refine ⟨{ id := env.chatId, session_id := chat_session_id req env, message := req.message,
              response := get_ai_response env req.message (chat_session_id req env) req.language,
              timestamp := env.chatTs, message_type := "text" },
            ?_, rfl, rfl, fun hc => tagged_message_ne req.language req.message hc.symm⟩
    have h2 := congrArg (fun p => p.2.chat_messages) h
    simp [chat_endpoint, hins] at h2
    exact h2.symm

/-- C5 witness: the concrete successful chat turn stores the raw
`"hello"`, not the tagged message sent to the LLM. -/
theorem chat_persists_original_message_witness :
    ∃ cm : ChatMessage,
      ({ chat_messages := [{ id := "C", session_id := "s", message := "hello",
                             response := "ANSWER", timestamp := 5, message_type := "text" }],
         documents := [] } : Store).chat_messages =
        st0.chat_messages ++ [cm] ∧
      cm.message_type = "text" ∧ cm.message = "hello" ∧
      cm.message ≠ tagged_message "english" "hello" :=
  chat_persists_original_message { message := "hello", session_id := some "s", language := "english" }
    envOK st0
    { response := "ANSWER", session_id := "s", timestamp := 6,
      sources := ["Indian Legal Database", "Government Schemes Portal"] }
    { chat_messages := [{ id := "C", session_id := "s", message := "hello",
                          response := "ANSWER", timestamp := 5, message_type := "text" }],
      documents := [] }
    rfl

/-- C6: every successful `/upload-document` request appends exactly one
`DocumentUpload` and exactly one `ChatMessage`, both with the requested
session id; the `ChatMessage` has type `"document"`, the synthetic
message `"Uploaded document: <filename>"`, and as `response` the AI
explanation that is also stored as the `simplified_explanation` of the
`DocumentUpload` and returned as the `explanation` of the response. -/
theorem upload_success_persists_pair (file : UploadedFile) (sid lang : String)
    (env : Env) (st : Store) (resp : UploadResponse) (st' : Store)
    (h : upload_document file sid lang env st = (Except.ok resp, st')) :
    ∃ (doc : DocumentUpload) (cm : ChatMessage),
      st'.documents = st.documents ++ [doc] ∧
      st'.chat_messages = st.chat_messages ++ [cm] ∧
      doc.session_id = sid ∧ cm.session_id = sid ∧
      cm.message_type = "document" ∧
      cm.message = "Uploaded document: " ++ file.filename ∧
      cm.response = doc.simplified_explanation ∧
      resp.explanation = doc.simplified_explanation := by
  by_cases hbad : file.content_type ∈ allowed_types
  case neg => simp [upload_document, hbad] at h
  rcases hex : extract_dispatch file.content_type env with e | t <;>
    rw [upload_document] at h <;> rw [hex] at h <;> simp [hbad] at h
  by_cases ht : t = ""
  · simp [ht] at h
  · by_cases hdoc : env.insertDocFails
    · simp [ht, hdoc] at h
    · by_cases hchat : env.insertChatFails
      · simp [ht, hdoc, hchat] at h
      · simp [ht, hdoc, hchat, Prod.ext_iff] at h
        refine ⟨{ id := env.docId, session_id := sid, filename := file.filename,
                  extracted_text := t,
                  simplified_explanation :=
                    get_ai_response env (explanation_prompt lang t) sid lang,
                  timestamp := env.docTs },
                { id := env.chatId, session_id := sid,
                  message := "Uploaded document: " ++ file.filename,
                  response := get_ai_response env (explanation_prompt lang t) sid lang,
                  timestamp := env.chatTs, message_type := "document" },
                ?_, ?_, rfl, rfl, rfl, rfl, rfl, ?_⟩
        · rw [← h.2]
        · rw [← h.2]
        · rw [← h.1]

/-- C6 witness: the concrete successful PDF upload appends one document
record and one `"document"`-typed chat record sharing session `"s"`. -/
theorem upload_success_persists_pair_witness :
    ∃ (doc : DocumentUpload) (cm : ChatMessage),
      ({ chat_messages := [{ id := "C", session_id := "s",
                             message := "Uploaded document: a.pdf", response := "ANSWER",
                             timestamp := 5, message_type := "document" }],
         documents := [{ id := "D", session_id := "s", filename := "a.pdf",
                         extracted_text := "page", simplified_explanation := "ANSWER",
                         timestamp := 4 }] } : Store).documents = st0.documents ++ [doc] ∧
      ({ chat_messages := [{ id := "C", session_id := "s",
                             message := "Uploaded document: a.pdf", response := "ANSWER",
                             timestamp := 5, message_type := "document" }],
         documents := [{ id := "D", session_id := "s", filename := "a.pdf",
                         extracted_text := "page", simplified_explanation := "ANSWER",
                         timestamp := 4 }] } : Store).chat_messages = st0.chat_messages ++ [cm] ∧
      doc.session_id = "s" ∧ cm.session_id = "s" ∧
      cm.message_type = "document" ∧
      cm.message = "Uploaded document: " ++ "a.pdf" ∧
      cm.response = doc.simplified_explanation ∧
      ({ message := "Document processed successfully", extracted_text := "page",
         explanation := "ANSWER", session_id := "s" } : UploadResponse).explanation =
        doc.simplified_explanation :=
  upload_success_persists_pair { content_type := "application/pdf", filename := "a.pdf" }
    "s" "english" envOK st0
    { message := "Document processed successfully", extracted_text := "page",
      explanation := "ANSWER", session_id := "s" }
    { chat_messages := [{ id := "C", session_id := "s",
                          message := "Uploaded document: a.pdf", response := "ANSWER",
                          timestamp := 5, message_type := "document" }],
      documents := [{ id := "D", session_id := "s", filename := "a.pdf",
                      extracted_text := "page", simplified_explanation := "ANSWER",
                      timestamp := 4 }] }
    rfl

/-- C7: every `/chat-history/{session_id}` success contains at most 100
records, all originating from stored documents of exactly the requested
session, sorted ascending by stored timestamp, each projected to the
fixed field set with the safe defaults: `id` falls back to the internal
identifier, the string fields default to `""`, `message_type` defaults
to `"text"`, and a missing timestamp surfaces as the empty-string
default. -/
theorem chat_history_contract (sid : String) (env : Env) (msgs : List StoredMsg)
    (out : List CleanMessage) (h : get_chat_history sid env msgs = Except.ok out) :
    out.length ≤ 100 ∧
    (∀ cm ∈ out, ∃ m ∈ msgs, m.session_id = some sid ∧
      cm.id = m.id.getD (m.mongo_id.getD "") ∧
      cm.session_id = m.session_id.getD "" ∧
      cm.message = m.message.getD "" ∧
      cm.response = m.response.getD "" ∧
      cm.message_type = m.message_type.getD "text" ∧
      cm.timestamp = (match m.timestamp with
        | some t => TsOut.ts t
        | none => TsOut.emptyStr)) ∧
    (∀ cm ∈ out, cm.session_id = sid) ∧
    List.Pairwise (fun a b => cleanTsLe a.timestamp b.timestamp = true) out := by
  rcases hferr : env.findErr with _ | e
  · rw [get_chat_history, hferr] at h
    have hout : out = (mongo_find_sorted msgs sid).map clean_message := by
      cases h; rfl
    subst hout
    refine ⟨?_, ?_, ?_, ?_⟩
    · simp [mongo_find_sorted, List.length_take]
    · intro cm hcm
      rcases List.mem_map.mp hcm with ⟨m, hm, rfl⟩
      rcases mongo_find_sorted_mem msgs sid m hm with ⟨hmem, hsid⟩
      exact ⟨m, hmem, hsid, rfl, rfl, rfl, rfl, rfl, rfl⟩
    · intro cm hcm
      rcases List.mem_map.mp hcm with ⟨m, hm, rfl⟩
      rcases mongo_find_sorted_mem msgs sid m hm with ⟨_, hsid⟩
      simp [clean_message, hsid]
    · exact List.pairwise_map.mpr
        ((mongo_find_sorted_pairwise msgs sid).imp
          (fun hab => cleanTsLe_of_tsLe _ _ hab))
  · rw [get_chat_history, hferr] at h
    cases h

/-- C7 witness: the contract instantiated on the fixture collection,
whose session-`"s"` record has its `id`, `message`, `response` and
`message_type` fields missing and gets the documented defaults. -/
theorem chat_history_contract_witness :
    out1.length ≤ 100 ∧
    (∀ cm ∈ out1, ∃ m ∈ msgs1, m.session_id = some "s" ∧
      cm.id = m.id.getD (m.mongo_id.getD "") ∧
      cm.session_id = m.session_id.getD "" ∧
      cm.message = m.message.getD "" ∧
      cm.response = m.response.getD "" ∧
      cm.message_type = m.message_type.getD "text" ∧
      cm.timestamp = (match m.timestamp with
        | some t => TsOut.ts t
        | none => TsOut.emptyStr)) ∧
    (∀ cm ∈ out1, cm.session_id = "s") ∧
    List.Pairwise (fun a b => cleanTsLe a.timestamp b.timestamp = true) out1 :=
  chat_history_contract "s" env0 msgs1 out1 c7_witness_h

/-- C8: for a session id matching no stored record, and a working store,
`/chat-history/{session_id}` succeeds with the empty message list
instead of raising an error. -/
theorem chat_history_empty_session (sid : String) (env : Env) (msgs : List StoredMsg)
    (hferr : env.findErr = none)
    (hnone : ∀ m ∈ msgs, m.session_id ≠ some sid) :
    get_chat_history sid env msgs = Except.ok [] := by
  have hfilter : msgs.filter (fun m => m.session_id = some sid) = [] := by
    rw [List.filter_eq_nil_iff]
    intro m hm
    simpa using hnone m hm
  simp [get_chat_history, hferr, mongo_find_sorted, hfilter]

/-- C8 witness: the fixture collection has no `"zzz"` record and the
history call answers the empty list. -/
theorem chat_history_empty_session_witness :
    get_chat_history "zzz" env0 msgs1 = Except.ok [] :=
  chat_history_empty_session "zzz" env0 msgs1 rfl (by decide)

/-- C9: even when the LLM call raises during `/chat`, the handler still
persists a `ChatMessage` for the turn — with the static apology string
as its `response` — exactly like a successful turn. -/
theorem chat_ai_failure_still_persists_apology (req : ChatRequest) (env : Env) (st : Store)
    (hllm : env.llm (chat_session_id req env)
      (tagged_message req.language req.message) = Except.error ())
    (hins : env.insertChatFails = false) :
    ∃ cm : ChatMessage,
      (chat_endpoint req env st).2.chat_messages = st.chat_messages ++ [cm] ∧
      cm.response = apology_message ∧ cm.message_type = "text" ∧
      cm.session_id = chat_session_id req env := by
  refine ⟨{ id := env.chatId, session_id := chat_session_id req env, message := req.message,
            response := apology_message, timestamp := env.chatTs, message_type := "text" },
          ?_, rfl, rfl, rfl⟩
  simp [chat_endpoint, get_ai_response, hllm, hins]

/-- C9 witness: the concrete chat turn under a failing LLM oracle stores
a record carrying the apology string. -/
theorem chat_ai_failure_still_persists_apology_witness :
    ∃ cm : ChatMessage,
      (chat_endpoint { message := "hello", session_id := some "s", language := "english" } env0 st0).2.chat_messages =
        st0.chat_messages ++ [cm] ∧
      cm.response = apology_message ∧ cm.message_type = "text" ∧
      cm.session_id = chat_session_id { message := "hello", session_id := some "s", language := "english" } env0 :=
  chat_ai_failure_still_persists_apology _ _ _ rfl rfl

/-- C10: the two persistence writes of `/upload-document` are not
atomic: when the `DocumentUpload` insert succeeds and the following
`ChatMessage` insert raises, the endpoint answers 500 while the document
record stays persisted and the chat collection is untouched. -/
theorem upload_keeps_doc_on_chat_insert_failure (file : UploadedFile)
    (sid lang t : String) (env : Env) (st : Store)
    (hct : file.content_type ∈ allowed_types)
    (hext : extract_dispatch file.content_type env = Except.ok t) (ht : t ≠ "")
    (hdoc : env.insertDocFails = false) (hchat : env.insertChatFails = true) :
    (upload_document file sid lang env st).1 =
      Except.error ⟨500, "Failed to process document"⟩ ∧
    (∃ doc : DocumentUpload,
      (upload_document file sid lang env st).2.documents = st.documents ++ [doc] ∧
      doc.extracted_text = t) ∧
    (upload_document file sid lang env st).2.chat_messages = st.chat_messages := by
  simp [upload_document, hct, hext, ht, hdoc, hchat]

/-- C10 witness: with a raising chat insert, the concrete PDF upload
answers 500 yet leaves the freshly inserted document record behind. -/
theorem upload_keeps_doc_on_chat_insert_failure_witness :
    (upload_document { content_type := "application/pdf", filename := "a.pdf" } "s" "english" envChatIns st0).1 =
      Except.error ⟨500, "Failed to process document"⟩ ∧
    (∃ doc : DocumentUpload,
      (upload_document { content_type := "application/pdf", filename := "a.pdf" } "s" "english" envChatIns st0).2.documents = st0.documents ++ [doc] ∧
      doc.extracted_text = "page") ∧
    (upload_document { content_type := "application/pdf", filename := "a.pdf" } "s" "english" envChatIns st0).2.chat_messages = st0.chat_messages :=
  upload_keeps_doc_on_chat_insert_failure _ _ _ _ _ _ (by decide) rfl (by decide) rfl rfl
